import Mathlib

/- Verification of the roulette spin core of the Pixi-Boilerplate repository:
   the four-phase ball trajectory engine (src/physics/BallPhysics.ts), the
   post-land wheel synchronizer, and the spin orchestration in
   src/mainscene.ts, with tunables from src/config/GameConfig.ts.

   Angles are rationals measured in radians.  Math.PI is embedded as the exact
   rational value of the IEEE-754 double precision constant,
   884279719003555 / 2^48.  Exact rational arithmetic abstracts the
   floating-point arithmetic of the source (every double is a rational), which
   is what the "within floating-point tolerance" wording of the specification
   asks for.  Math.cos, Math.sin are kept abstract as function parameters
   (cosF, sinF); all properties proved here are independent of their values. -/

namespace Roulette

/-- Exact rational value of the IEEE-754 double Math.PI. -/
def mathPi : ℚ := 884279719003555 / 281474976710656

/-- ROULETTE_CONFIG.pocketCount (GameConfig.ts). -/
def pocketCount : ℤ := 37

/-- ROULETTE_CONFIG.spinDuration in seconds (GameConfig.ts). -/
def spinDuration : ℚ := 15

/-- ROULETTE_CONFIG.ballSpins (GameConfig.ts). -/
def ballSpins : ℚ := 8

/-- ROULETTE_CONFIG.constantWheelSpeed, rotations per second (GameConfig.ts). -/
def constantWheelSpeed : ℚ := 0.5

/-- Angle normalization, first while loop of executePhase4_CalculatedLanding:
    while (angleDiff > Math.PI) angleDiff -= 2 * Math.PI. -/
def subLoop (d : ℚ) : ℚ :=
  if h : mathPi < d then subLoop (d - 2 * mathPi) else d
termination_by (⌈(d - mathPi) / (2 * mathPi)⌉).toNat
decreasing_by
  have hpi : (0 : ℚ) < mathPi := by norm_num [mathPi]
  have h2 : (0 : ℚ) < 2 * mathPi := by linarith
  have key : (d - 2 * mathPi - mathPi) / (2 * mathPi)
      = (d - mathPi) / (2 * mathPi) - 1 := by
    field_simp
    ring
  have hpos : 0 < ⌈(d - mathPi) / (2 * mathPi)⌉ :=
    Int.ceil_pos.mpr (div_pos (by linarith) h2)
  rw [key, Int.ceil_sub_one]
  omega

/-- Angle normalization, second while loop of executePhase4_CalculatedLanding:
    while (angleDiff < -Math.PI) angleDiff += 2 * Math.PI. -/
def addLoop (d : ℚ) : ℚ :=
  if h : d < -mathPi then addLoop (d + 2 * mathPi) else d
termination_by (⌈(-mathPi - d) / (2 * mathPi)⌉).toNat
decreasing_by
  have hpi : (0 : ℚ) < mathPi := by norm_num [mathPi]
  have h2 : (0 : ℚ) < 2 * mathPi := by linarith
  have key : (-mathPi - (d + 2 * mathPi)) / (2 * mathPi)
      = (-mathPi - d) / (2 * mathPi) - 1 := by
    field_simp
    ring
  have hpos : 0 < ⌈(-mathPi - d) / (2 * mathPi)⌉ :=
    Int.ceil_pos.mpr (div_pos (by linarith) h2)
  rw [key, Int.ceil_sub_one]
  omega

/-- Both normalization loops in sequence, as run by the source. -/
def normalizeShortest (d : ℚ) : ℚ := addLoop (subLoop d)

/-- Forced counter-clockwise bias of executePhase4_CalculatedLanding:
    if (angleDiff > 0) angleDiff -= 2 * Math.PI. -/
def forceCCW (d : ℚ) : ℚ := if 0 < d then d - 2 * mathPi else d

/- Phase 3 of the trajectory engine, executePhase3_GradualDescent.  The angle
   written to this.currentBallAngle on each update is a function of the update
   progress only; the random draw (Math.random) enters the rendered position
   but never the angle. -/

/-- Phase 3 start angle: startAngle = -(phase1And2Rotations * 2 * Math.PI)
    with phase1And2Rotations = ballSpins * 0.65; parametrized by the
    ballSpins configuration S. -/
def phase3StartAngle (S : ℚ) : ℚ := -(S * 0.65 * 2 * mathPi)

/-- Phase 3 per-update ball angle: currentBallAngle =
    startAngle - phase3Rotations * 2 * Math.PI * progress, with
    phase3Rotations = ballSpins * 0.25. -/
def phase3Angle (S p : ℚ) : ℚ := phase3StartAngle S - S * 0.25 * 2 * mathPi * p

/-- Phase 3 base radius: radiusStart - (radiusStart - radiusEnd) * progress. -/
def phase3BaseRadius (startR midR p : ℚ) : ℚ := startR - (startR - midR) * p

/-- Phase 3 bounce height: Math.sin(progress * bounceFreq) * bounceIntensity *
    (1 - progress * 0.2), with bounceIntensity = 15 + progress * 10 and
    bounceFreq = 8 + progress * 6. -/
def phase3BounceHeight (sinF : ℚ → ℚ) (p : ℚ) : ℚ :=
  sinF (p * (8 + p * 6)) * (15 + p * 10) * (1 - p * 0.2)

/-- Phase 3 erratic movement: Math.sin(progress * 25) * erraticIntensity *
    Math.random(), with erraticIntensity = 12 * (1 - progress * 0.5).  The
    value drawn from Math.random is the explicit parameter rand. -/
def phase3Erratic (sinF : ℚ → ℚ) (p rand : ℚ) : ℚ :=
  sinF (p * 25) * (12 * (1 - p * 0.5)) * rand

/-- Phase 3 rendered ball position for one update at progress p with random
    draw rand: x = centerX + finalRadius * cos(angle),
    y = centerY + finalRadius * sin(angle) + bounceHeight, where
    finalRadius = baseRadius + erraticMovement. -/
def phase3Pos (cosF sinF : ℚ → ℚ) (cx cy startR midR S p rand : ℚ) : ℚ × ℚ :=
  (cx + (phase3BaseRadius startR midR p + phase3Erratic sinF p rand) * cosF (phase3Angle S p),
   cy + (phase3BaseRadius startR midR p + phase3Erratic sinF p rand) * sinF (phase3Angle S p)
      + phase3BounceHeight sinF p)

/- Phase 4 of the trajectory engine, executePhase4_CalculatedLanding. -/

/-- Phase 4 duration: ROULETTE_CONFIG.spinDuration * 0.20 (20 percent of the
    total spin time). -/
def phase4Duration : ℚ := spinDuration * 0.20

/-- Ball angle assumed at the start of phase 4:
    initialBallAngle = -(phase1To3Rotations * 2 * Math.PI) with
    phase1To3Rotations = ballSpins * 0.90; parametrized by the ballSpins
    configuration S. -/
def phase4InitialBallAngle (S : ℚ) : ℚ := -(S * 0.90 * 2 * mathPi)

/-- Wheel rotation predicted to accumulate during phase 4:
    constantWheelSpeed * remainingTime * 2 * Math.PI, where remainingTime is
    the phase 4 duration. -/
def wheelRotationDuringRemainingTime : ℚ :=
  constantWheelSpeed * phase4Duration * 2 * mathPi

/-- Predicted wheel rotation at landing time: currentWheelRotation (the w
    argument, sampled from this.roulette.rotation at phase 4 start) plus the
    rotation accumulated during phase 4. -/
def finalWheelRotation (w : ℚ) : ℚ := w + wheelRotationDuringRemainingTime

/-- Top reference position used for pocket alignment: -Math.PI / 2. -/
def topPosition : ℚ := -mathPi / 2

/-- Target ball angle: targetWorldAngle - topPosition, with targetWorldAngle =
    targetNumberLocalAngle + finalWheelRotation.  The local angle a is the
    value of this.roulette.getAngleForNumber(winningIndex), kept abstract. -/
def targetBallAngle (a w : ℚ) : ℚ := a + finalWheelRotation w - topPosition

/-- Phase 4 angular delta: targetBallAngle - initialBallAngle, normalized by
    the two while loops, then forced counter-clockwise. -/
def phase4AngleDiff (a w : ℚ) : ℚ :=
  forceCCW (normalizeShortest (targetBallAngle a w - phase4InitialBallAngle ballSpins))

/-- Phase 4 per-update interpolated angle:
    interpolatedAngle = initialBallAngle + angleDiff * progress.  This is the
    angle the rendered position is computed from in the phase 4 onUpdate. -/
def phase4InterpolatedAngle (a w p : ℚ) : ℚ :=
  phase4InitialBallAngle ballSpins + phase4AngleDiff a w * p

/-- Phase 4 clamp bound: maxDelta = 0.04 radians per update. -/
def maxDelta : ℚ := 0.04

/-- clampedDelta = Math.max(-maxDelta, Math.min(maxDelta, deltaAngle)). -/
def clampDelta (d : ℚ) : ℚ := max (-maxDelta) (min maxDelta d)

/-- Phase 4 update of the internal this.currentBallAngle state:
    currentBallAngle += clampedDelta, where deltaAngle = interpolatedAngle -
    currentBallAngle. -/
def phase4NextBallAngle (a w current p : ℚ) : ℚ :=
  current + clampDelta (phase4InterpolatedAngle a w p - current)

/-- easeInOutCubic(t) from BallPhysics. -/
def easeInOutCubic (t : ℚ) : ℚ :=
  if t < 0.5 then 4 * t * t * t else 1 - (-2 * t + 2) ^ 3 / 2

/-- Phase 4 radius descent: radiusStart - (radiusStart - radiusEnd) *
    easeInOutCubic(progress), from mid radius to end radius. -/
def phase4Radius (midR endR p : ℚ) : ℚ :=
  midR - (midR - endR) * easeInOutCubic p

/-- Phase 4 rendered ball position for one update at progress p.  Note that
    the source computes x and y from interpolatedAngle, not from the clamped
    this.currentBallAngle. -/
def phase4Pos (cosF sinF : ℚ → ℚ) (cx cy midR endR a w p : ℚ) : ℚ × ℚ :=
  (cx + (phase4Radius midR endR p + sinF (p * mathPi * 8) * (3 * (1 - p) ^ 3))
      * cosF (phase4InterpolatedAngle a w p),
   cy + (phase4Radius midR endR p + sinF (p * mathPi * 8) * (3 * (1 - p) ^ 3))
      * sinF (phase4InterpolatedAngle a w p)
      + sinF (p * mathPi * 5) * (12 * (1 - p) ^ 2))

/-- Phase 4 onComplete snap: finalX = centerX + ballEndRadius *
    Math.cos(targetBallAngle), finalY = centerY + ballEndRadius *
    Math.sin(targetBallAngle). -/
def phase4FinalPos (cosF sinF : ℚ → ℚ) (cx cy endR a w : ℚ) : ℚ × ℚ :=
  (cx + endR * cosF (targetBallAngle a w),
   cy + endR * sinF (targetBallAngle a w))

/- Post-land synchronizer, establishSmoothWheelSync.  Each update samples the
   live wheel rotation w and blends the frozen landing angle into the
   wheel-relative angle.  The source reads the frozen angle as
   this.ballFinalAngle || 0, which equals ballFinalAngle (when ballFinalAngle
   is 0 the fallback is also 0). -/

/-- Blended angle of one sync update: currentAngle = ballCurrentAngle *
    (1 - progress) + wheelRelativeAngle * progress, with wheelRelativeAngle =
    targetNumberLocalAngle + currentWheelRotation. -/
def blendedAngle (frozen a w p : ℚ) : ℚ := frozen * (1 - p) + (a + w) * p

/- Noninterference trace for one spin (claim about the random source).  A run
   records the phase 3 rendered positions, which consume the stream of
   Math.random draws, together with every deterministic landing quantity of
   phase 4: the target angle, the forced angular delta, the rendered
   interpolation angles, the clamped internal angle sequence, and the final
   snapped position. -/

/-- Value of this.currentBallAngle after the phase 3 updates; each update
    overwrites it with the angle for its own progress value, so the exit value
    is the angle of the last update (or the reset value 0 from startSpin when
    phase 3 ran no update). -/
def phase3ExitAngle (S init : ℚ) (p3s : List ℚ) : ℚ :=
  p3s.foldl (fun _ p => phase3Angle S p) init

/-- Sequence of internal this.currentBallAngle values over the phase 4
    updates, starting from the value cur left by phase 3. -/
def phase4ClampedAngles (a w : ℚ) : ℚ → List ℚ → List ℚ
  | _, [] => []
  | cur, p :: ps =>
    phase4NextBallAngle a w cur p ::
      phase4ClampedAngles a w (phase4NextBallAngle a w cur p) ps

/-- Everything one spin produces that the claims compare across runs. -/
structure SpinTrace where
  phase3Positions : List (ℚ × ℚ)
  landingTarget : ℚ
  landingDelta : ℚ
  renderAngles : List ℚ
  clampedAngles : List ℚ
  finalPos : ℚ × ℚ

/-- One run of the spin: phase 3 updates at the progress values p3s consume
    the random draws rands pairwise; phase 4 updates at the progress values
    p4s and the landing computation consume none of them. -/
def runSpin (cosF sinF : ℚ → ℚ) (cx cy startR midR endR a w : ℚ)
    (p3s p4s rands : List ℚ) : SpinTrace :=
  { phase3Positions :=
      (p3s.zip rands).map fun pr => phase3Pos cosF sinF cx cy startR midR ballSpins pr.1 pr.2
    landingTarget := targetBallAngle a w
    landingDelta := phase4AngleDiff a w
    renderAngles := p4s.map (phase4InterpolatedAngle a w)
    clampedAngles := phase4ClampedAngles a w (phase3ExitAngle ballSpins 0 p3s) p4s
    finalPos := phase4FinalPos cosF sinF cx cy endR a w }

end Roulette

/- State machine embedding of BallPhysics (animation bookkeeping) and of the
   MainScene orchestrator.  Animation handles are modelled by what they would
   do when their callbacks fire: the master timeline and the sync tween are
   tagged with the winning index their callbacks close over; the phase 1 tween
   handle carries no index.  Killing an animation removes the handle. -/

namespace BallPhysics

open Roulette

/-- Mutable fields of the BallPhysics class relevant to spin sessions. -/
structure State where
  isSpinning : Bool
  animationTimeline : Option ℤ
  ballTween : Bool
  ballSyncTween : Option ℤ
  currentBallAngle : ℚ
  ballFinalAngle : ℚ
  ballVisible : Bool

/-- stopAllAnimations: kills the timeline, the phase 1 tween and the sync
    tween (each set to null after kill). -/
def stopAllAnimations (s : State) : State :=
  { s with animationTimeline := none, ballTween := false, ballSyncTween := none }

/-- startSpin(winningIndex): rejected with a console.warn when already
    spinning or the index is out of [0, pocketCount); otherwise marks the
    engine spinning, shows the ball, clears all existing animations, resets
    the angle state, and registers the master timeline with the four phase
    tweens, whose completion callbacks close over winningIndex. -/
def startSpin (s : State) (winningIndex : ℤ) : State :=
  if s.isSpinning = true ∨ winningIndex < 0 ∨ pocketCount ≤ winningIndex then s
  else
    { stopAllAnimations { s with isSpinning := true, ballVisible := true } with
        currentBallAngle := 0, ballFinalAngle := 0,
        animationTimeline := some winningIndex, ballTween := true }

/-- Winning indices that some still-registered animation callback closes
    over: the master timeline (phase tweens and completion) and the post-land
    sync tween.  A position update attributable to a target can only come
    from one of these. -/
def activeSessionTargets (s : State) : List ℤ :=
  s.animationTimeline.toList ++ s.ballSyncTween.toList

end BallPhysics

namespace MainScene

open Roulette

/-- Game state of the MainScene orchestrator. -/
structure State where
  ballPhysics : BallPhysics.State
  isSpinning : Bool
  countdownRunning : Bool
  isServerControlled : Bool

/-- canSpin(): not spinning and no countdown running. -/
def canSpin (s : State) : Bool := !s.isSpinning && !s.countdownRunning

/-- startSpin(winningIndex): warns and returns when canSpin() is false;
    otherwise sets isSpinning, updates game state, and delegates to
    BallPhysics.startSpin.  Note it performs no range check of its own. -/
def startSpin (s : State) (winningIndex : ℤ) : State :=
  if canSpin s = false then s
  else
    { s with isSpinning := true,
             ballPhysics := BallPhysics.startSpin s.ballPhysics winningIndex }

/-- gameUI.stopCountdown() as seen by the orchestrator state. -/
def stopCountdown (s : State) : State := { s with countdownRunning := false }

/-- handleServerSpin(message): stops the countdown, then startSpin with the
    server-chosen index. -/
def handleServerSpin (s : State) (index : ℤ) : State :=
  startSpin (stopCountdown s) index

/-- handleRoundStart(message): if the scene is spinning, calls
    ballPhysics.stopAllAnimations() and clears only the scene flag (the
    engine flag is untouched, since stopAllAnimations does not reset
    BallPhysics.isSpinning and the killed timeline never fires onComplete);
    then starts the server-synced countdown. -/
def handleRoundStart (s : State) : State :=
  if s.isSpinning = true then
    { s with ballPhysics := BallPhysics.stopAllAnimations s.ballPhysics,
             isSpinning := false, countdownRunning := true }
  else { s with countdownRunning := true }

/-- handleInputSpin(targetNumber): spins only when canSpin(). -/
def handleInputSpin (s : State) (targetNumber : ℤ) : State :=
  if canSpin s = true then startSpin s targetNumber else s

/-- handleInputRandomSpin(): when canSpin(), draws
    Math.floor(Math.random() * pocketCount) and spins to it; the Math.random
    draw is the explicit parameter rand. -/
def handleInputRandomSpin (s : State) (rand : ℚ) : State :=
  if canSpin s = true then startSpin s ⌊rand * ((pocketCount : ℤ) : ℚ)⌋ else s

/-- Public spin(targetNumber?): ignored in server mode; a defined, in-range
    targetNumber goes to handleInputSpin, anything else (undefined or out of
    range) goes to handleInputRandomSpin. -/
def spin (s : State) (targetNumber : Option ℤ) (rand : ℚ) : State :=
  if s.isServerControlled = true then s
  else
    match targetNumber with
    | some t =>
      if 0 ≤ t ∧ t < pocketCount then handleInputSpin s t
      else handleInputRandomSpin s rand
    | none => handleInputRandomSpin s rand

end MainScene

/- Concrete states used by counterexamples and witnesses. -/

/-- Engine state in the middle of a spin (phases running, target pocket 3). -/
def midPhaseBall : BallPhysics.State :=
  { isSpinning := true, animationTimeline := some 3, ballTween := true,
    ballSyncTween := none, currentBallAngle := -5, ballFinalAngle := 0,
    ballVisible := true }

/-- Engine state after a spin to pocket 3 has landed and locked to the wheel:
    trajectory done, permanent sync tween active. -/
def lockedBall : BallPhysics.State :=
  { isSpinning := false, animationTimeline := none, ballTween := false,
    ballSyncTween := some 3, currentBallAngle := 2, ballFinalAngle := 2,
    ballVisible := true }

/-- Scene in the Spinning state (spin to pocket 3 in flight) with a countdown
    also running, under server control. -/
def spinningScene : MainScene.State :=
  { ballPhysics := midPhaseBall,
    isSpinning := true, countdownRunning := true, isServerControlled := true }

/-- Scene in the CountdownRunning state under server control, with the ball
    of the previous round locked to pocket 3. -/
def countdownScene : MainScene.State :=
  { ballPhysics := lockedBall,
    isSpinning := false, countdownRunning := true, isServerControlled := true }

/-- Idle scene, ready to spin, manual mode. -/
def readyScene : MainScene.State :=
  { ballPhysics :=
      { isSpinning := false, animationTimeline := none, ballTween := false,
        ballSyncTween := none, currentBallAngle := 0, ballFinalAngle := 0,
        ballVisible := false },
    isSpinning := false, countdownRunning := false, isServerControlled := false }

/-- Idle scene, ready to spin, manual mode (distinct copy for the manual-spin
    claim). -/
def manualReadyScene : MainScene.State :=
  { ballPhysics :=
      { isSpinning := false, animationTimeline := none, ballTween := false,
        ballSyncTween := none, currentBallAngle := 0, ballFinalAngle := 0,
        ballVisible := false },
    isSpinning := false, countdownRunning := false, isServerControlled := false }

/-- Local angle input used by the phase 4 clamp counterexample. -/
def unclampedLocalAngle : ℚ := -(92 / 5) * Roulette.mathPi




/- Claim theorems. -/

open Roulette

/- Helper lemmas about the normalization loops and spin acceptance. -/

namespace Roulette

lemma subLoop_eval_step (x : ℚ) (h : mathPi < x) :
    subLoop x = subLoop (x - 2 * mathPi) := by
  conv_lhs => rw [subLoop]
  exact dif_pos h

lemma subLoop_eval_done (x : ℚ) (h : ¬ mathPi < x) : subLoop x = x := by
  conv_lhs => rw [subLoop]
  exact dif_neg h

lemma addLoop_eval_step (x : ℚ) (h : x < -mathPi) :
    addLoop x = addLoop (x + 2 * mathPi) := by
  conv_lhs => rw [addLoop]
  exact dif_pos h

lemma addLoop_eval_done (x : ℚ) (h : ¬ x < -mathPi) : addLoop x = x := by
  conv_lhs => rw [addLoop]
  exact dif_neg h

lemma subLoop_le_pi (x : ℚ) : subLoop x ≤ mathPi := by
  induction x using subLoop.induct with
  | case1 d h ih =>
    rw [subLoop_eval_step d h]
    exact ih
  | case2 d h =>
    rw [subLoop_eval_done d h]
    exact le_of_not_lt h

lemma addLoop_ge_neg_pi (x : ℚ) : -mathPi ≤ addLoop x := by
  induction x using addLoop.induct with
  | case1 d h ih =>
    rw [addLoop_eval_step d h]
    exact ih
  | case2 d h =>
    rw [addLoop_eval_done d h]
    exact le_of_not_lt h

lemma addLoop_le_pi (x : ℚ) (hx : x ≤ mathPi) : addLoop x ≤ mathPi := by
  induction x using addLoop.induct with
  | case1 d h ih =>
    rw [addLoop_eval_step d h]
    exact ih (by linarith)
  | case2 d h =>
    rw [addLoop_eval_done d h]
    exact hx

lemma normalizeShortest_le_pi (d : ℚ) : normalizeShortest d ≤ mathPi :=
  addLoop_le_pi _ (subLoop_le_pi d)

lemma forceCCW_nonpos (d : ℚ) (hd : d ≤ mathPi) : forceCCW d ≤ 0 := by
  have hpi : (0 : ℚ) < mathPi := by norm_num [mathPi]
  unfold forceCCW
  split
  next h => linarith
  next h => exact le_of_not_lt h

end Roulette

/-- An accepted engine spin (not busy, index in range) always produces the
    same fully reset engine state, regardless of the prior state. -/
lemma ballStartSpin_accepted (s : BallPhysics.State) (index : ℤ)
    (h : s.isSpinning = false) (h0 : 0 ≤ index) (h1 : index < pocketCount) :
    BallPhysics.startSpin s index =
      { isSpinning := true, animationTimeline := some index, ballTween := true,
        ballSyncTween := none, currentBallAngle := 0, ballFinalAngle := 0,
        ballVisible := true } := by
  have hcond : ¬ (s.isSpinning = true ∨ index < 0 ∨ pocketCount ≤ index) := by
    push_neg
    exact ⟨by simp [h], h0, h1⟩
  unfold BallPhysics.startSpin
  rw [if_neg hcond]
  rfl

/-- Claim C1: for every valid targetPocket and every wheel rotation at the
    start of phase 4, the onComplete snap of phase 4 places the ball exactly
    at the end radius, at the angle given by the local pocket angle plus the
    predicted future wheel rotation (currentWheelRotation +
    constantWheelSpeed * phase4Duration * 2 * pi), adjusted by the top
    reference offset (plus pi / 2). -/
theorem phase4_snap_matches_predicted_target
    (f : ℤ → ℚ) (p : ℤ) (w cx cy endR : ℚ) (cosF sinF : ℚ → ℚ)
    (hp0 : 0 ≤ p) (hp1 : p < pocketCount) :
    phase4FinalPos cosF sinF cx cy endR (f p) w =
      (cx + endR * cosF (f p + (w + constantWheelSpeed * phase4Duration * 2 * mathPi) + mathPi / 2),
       cy + endR * sinF (f p + (w + constantWheelSpeed * phase4Duration * 2 * mathPi) + mathPi / 2)) := by
  have hang : targetBallAngle (f p) w
      = f p + (w + constantWheelSpeed * phase4Duration * 2 * mathPi) + mathPi / 2 := by
    unfold targetBallAngle finalWheelRotation wheelRotationDuringRemainingTime topPosition
    ring
  unfold phase4FinalPos
  rw [hang]

/-- Witness for claim C1 at pocket 0, wheel rotation 0. -/
theorem phase4_snap_matches_predicted_target_witness :
    ((0:ℤ) ≤ 0 ∧ (0:ℤ) < pocketCount) ∧
    phase4FinalPos id id 0 0 1 ((fun _ => (0:ℚ)) 0) 0 =
      (0 + 1 * id ((fun _ => (0:ℚ)) 0 + (0 + constantWheelSpeed * phase4Duration * 2 * mathPi) + mathPi / 2),
       0 + 1 * id ((fun _ => (0:ℚ)) 0 + (0 + constantWheelSpeed * phase4Duration * 2 * mathPi) + mathPi / 2)) :=
  ⟨⟨by decide, by decide⟩,
   phase4_snap_matches_predicted_target (fun _ => 0) 0 0 0 0 1 id id (by decide) (by decide)⟩

/-- Claim C6: the phase 4 angular delta, obtained by normalizing the
    difference of any two input angles with the two while loops and then
    applying the forced counter-clockwise bias, is always non-positive; in
    particular the delta phase 4 actually uses is non-positive for every
    local angle and wheel rotation. -/
theorem phase4_delta_nonpos (current target a w : ℚ) :
    forceCCW (normalizeShortest (target - current)) ≤ 0 ∧ phase4AngleDiff a w ≤ 0 :=
  ⟨forceCCW_nonpos _ (normalizeShortest_le_pi _),
   forceCCW_nonpos _ (normalizeShortest_le_pi _)⟩

/-- Claim C7: the angle phase 4 assumes at its start equals the angle phase 3
    reaches at progress 1, exactly, for every ballSpins configuration:
    -(0.65 S) 2 pi - (0.25 S) 2 pi = -(0.90 S) 2 pi. -/
theorem phase3_end_equals_phase4_start (S : ℚ) :
    phase3Angle S 1 = phase4InitialBallAngle S := by
  unfold phase3Angle phase3StartAngle phase4InitialBallAngle
  ring

/-- Claim C8: the post-land blended angle equals the frozen landing angle at
    weight 0 and equals the local pocket angle plus the wheel rotation
    sampled at that instant at weight 1, for every wheel rotation. -/
theorem blend_endpoints (frozen a w : ℚ) :
    blendedAngle frozen a w 0 = frozen ∧ blendedAngle frozen a w 1 = a + w := by
  unfold blendedAngle
  constructor
  · ring
  · ring

/-- Claim C9: the random source never reaches the deterministic landing
    computation.  Two runs of a spin with the same target local angle, wheel
    rotation and progress sequences but arbitrary different random draws
    produce identical phase 4 outputs: target angle, forced delta, rendered
    interpolation angles, clamped internal angle sequence, and final snapped
    position (only the phase 3 positions may differ). -/
theorem phase4_outputs_ignore_randoms
    (cosF sinF : ℚ → ℚ) (cx cy startR midR endR a w : ℚ)
    (p3s p4s rands1 rands2 : List ℚ) :
    (runSpin cosF sinF cx cy startR midR endR a w p3s p4s rands1).landingTarget
      = (runSpin cosF sinF cx cy startR midR endR a w p3s p4s rands2).landingTarget ∧
    (runSpin cosF sinF cx cy startR midR endR a w p3s p4s rands1).landingDelta
      = (runSpin cosF sinF cx cy startR midR endR a w p3s p4s rands2).landingDelta ∧
    (runSpin cosF sinF cx cy startR midR endR a w p3s p4s rands1).renderAngles
      = (runSpin cosF sinF cx cy startR midR endR a w p3s p4s rands2).renderAngles ∧
    (runSpin cosF sinF cx cy startR midR endR a w p3s p4s rands1).clampedAngles
      = (runSpin cosF sinF cx cy startR midR endR a w p3s p4s rands2).clampedAngles ∧
    (runSpin cosF sinF cx cy startR midR endR a w p3s p4s rands1).finalPos
      = (runSpin cosF sinF cx cy startR midR endR a w p3s p4s rands2).finalPos :=
  ⟨rfl, rfl, rfl, rfl, rfl⟩

/-- Counterexample to claim C5: at local angle -(92/5) pi and wheel rotation
    0 the forced delta is -(pi/2), so between the consecutive phase 4 updates
    at progress 0 and progress 1 the interpolated angle, which is the angle
    the rendered position is computed from, moves by pi/2, far more than the
    claimed 0.04 radian bound.  The clamp of the source is applied to the
    internal currentBallAngle variable, not to the rendered angle. -/
theorem phase4_render_step_unclamped :
    maxDelta < |phase4InterpolatedAngle unclampedLocalAngle 0 1
      - phase4InterpolatedAngle unclampedLocalAngle 0 0| := by
  have h1 : targetBallAngle unclampedLocalAngle 0 - phase4InitialBallAngle ballSpins
      = -(mathPi / 2) := by
    unfold targetBallAngle unclampedLocalAngle phase4InitialBallAngle finalWheelRotation
      wheelRotationDuringRemainingTime topPosition ballSpins constantWheelSpeed
      phase4Duration spinDuration
    ring
  have h2 : phase4AngleDiff unclampedLocalAngle 0 = -(mathPi / 2) := by
    unfold phase4AngleDiff normalizeShortest
    rw [h1]
    rw [subLoop_eval_done _ (by norm_num [mathPi])]
    rw [addLoop_eval_done _ (by norm_num [mathPi])]
    unfold forceCCW
    rw [if_neg (by norm_num [mathPi])]
  have h3 : phase4InterpolatedAngle unclampedLocalAngle 0 1
      - phase4InterpolatedAngle unclampedLocalAngle 0 0 = -(mathPi / 2) := by
    unfold phase4InterpolatedAngle
    rw [h2]
    ring
  rw [h3, abs_neg, abs_of_nonneg (by norm_num [mathPi])]
  norm_num [mathPi, maxDelta]

/-- Claim C5 amended: during phase 4 the rendered position is driven by the
    unclamped linear interpolation startAngle + delta * progress, while the
    0.04 radian per-update clamp applies to the internal currentBallAngle
    state variable, whose step is indeed bounded by 0.04 in absolute value on
    every update, for every magnitude of delta. -/
theorem phase4_clamp_bounds_internal_angle (a w current p : ℚ) :
    |phase4NextBallAngle a w current p - current| ≤ maxDelta ∧
    phase4InterpolatedAngle a w p
      = phase4InitialBallAngle ballSpins + phase4AngleDiff a w * p := by
  constructor
  · have hm : (0:ℚ) ≤ maxDelta := by norm_num [maxDelta]
    unfold phase4NextBallAngle clampDelta
    rw [add_sub_cancel_left, abs_le]
    constructor
    · exact le_max_left _ _
    · exact max_le (by linarith) (min_le_left _ _)
  · rfl

/-- Counterexample to claim C2: while a spin to pocket 3 is mid-phase, a new
    startSpin to pocket 9 is rejected by the busy check: the engine state is
    unchanged, the old timeline (target 3) stays active, and no work
    targeting pocket 9 exists, so the old session is not cancelled. -/
theorem startSpin_midphase_keeps_old_session :
    BallPhysics.startSpin midPhaseBall 9 = midPhaseBall ∧
    (BallPhysics.startSpin midPhaseBall 9).animationTimeline = some 3 ∧
    (BallPhysics.startSpin midPhaseBall 9).animationTimeline ≠ some 9 ∧
    BallPhysics.activeSessionTargets (BallPhysics.startSpin midPhaseBall 9) = [3] :=
  ⟨rfl, rfl, by decide, rfl⟩

/-- Claim C2 amended: a new spin is accepted exactly when the previous
    trajectory has finished (isSpinning false, i.e. the landed, blending or
    locked states); it then cancels all remaining animation work of the
    previous session, returns the engine to Spinning, and leaves the new
    target as the only session target, so no update attributable to the old
    target can occur afterwards.  While a trajectory is mid-phase the request
    is rejected and the old session continues. -/
theorem startSpin_after_flight_cancels_all
    (s : BallPhysics.State) (index : ℤ)
    (h : s.isSpinning = false) (h0 : 0 ≤ index) (h1 : index < pocketCount) :
    (BallPhysics.startSpin s index).isSpinning = true ∧
    (BallPhysics.startSpin s index).ballSyncTween = none ∧
    (BallPhysics.startSpin s index).animationTimeline = some index ∧
    BallPhysics.activeSessionTargets (BallPhysics.startSpin s index) = [index] := by
  have hcond : ¬ (s.isSpinning = true ∨ index < 0 ∨ pocketCount ≤ index) := by
    push_neg
    exact ⟨by simp [h], h0, h1⟩
  unfold BallPhysics.startSpin
  rw [if_neg hcond]
  exact ⟨rfl, rfl, rfl, rfl⟩

/-- Witness for the amended claim C2: from the locked state of a session that
    landed on pocket 3, a new spin to pocket 9 cancels the sync work and
    leaves pocket 9 as the only active target. -/
theorem startSpin_after_flight_cancels_all_witness :
    (lockedBall.isSpinning = false ∧ (0:ℤ) ≤ 9 ∧ (9:ℤ) < pocketCount) ∧
    ((BallPhysics.startSpin lockedBall 9).isSpinning = true ∧
     (BallPhysics.startSpin lockedBall 9).ballSyncTween = none ∧
     (BallPhysics.startSpin lockedBall 9).animationTimeline = some 9 ∧
     BallPhysics.activeSessionTargets (BallPhysics.startSpin lockedBall 9) = [9]) :=
  ⟨⟨rfl, by decide, by decide⟩,
   startSpin_after_flight_cancels_all lockedBall 9 rfl (by decide) (by decide)⟩

/-- Counterexample to claim C3: in the Spinning state (spin to pocket 3 in
    flight) a remote Spin(7) message stops the countdown but does not start
    the trajectory engine with index 7: the busy check rejects it and the old
    spin continues, so the message is not always accepted. -/
theorem serverSpin_rejected_while_spinning :
    (MainScene.handleServerSpin spinningScene 7).countdownRunning = false ∧
    (MainScene.handleServerSpin spinningScene 7).ballPhysics.animationTimeline = some 3 ∧
    (MainScene.handleServerSpin spinningScene 7).ballPhysics.animationTimeline ≠ some 7 ∧
    (MainScene.handleServerSpin spinningScene 7).isSpinning = true :=
  ⟨rfl, rfl, by decide, rfl⟩

/-- Claim C3 amended: a remote Spin(index) message always stops any running
    countdown, and when the scene is not already spinning it flips the scene
    to spinning and delegates to the engine; the engine then actually starts
    with the server-chosen index exactly when its own isSpinning flag is also
    clear, and is rejected by its busy check when that flag is still set.
    The flags can disagree: handleRoundStart cancels an in-flight spin with
    stopAllAnimations, which never clears the engine flag, so a remote Spin
    arriving in the resulting CountdownRunning state is accepted by the scene
    but rejected by the engine, which does not start (final conjuncts trace
    this reachable case concretely from the Spinning state). -/
theorem serverSpin_engine_start_characterization :
    (∀ (s : MainScene.State) (index : ℤ),
      s.isSpinning = false → 0 ≤ index → index < pocketCount →
      (MainScene.handleServerSpin s index).countdownRunning = false ∧
      (MainScene.handleServerSpin s index).isSpinning = true ∧
      (s.ballPhysics.isSpinning = false →
        (MainScene.handleServerSpin s index).ballPhysics.isSpinning = true ∧
        (MainScene.handleServerSpin s index).ballPhysics.animationTimeline = some index) ∧
      (s.ballPhysics.isSpinning = true →
        (MainScene.handleServerSpin s index).ballPhysics = s.ballPhysics)) ∧
    (MainScene.handleRoundStart spinningScene).isSpinning = false ∧
    (MainScene.handleRoundStart spinningScene).countdownRunning = true ∧
    (MainScene.handleRoundStart spinningScene).ballPhysics.isSpinning = true ∧
    (MainScene.handleServerSpin (MainScene.handleRoundStart spinningScene) 7).isSpinning = true ∧
    (MainScene.handleServerSpin (MainScene.handleRoundStart spinningScene) 7).ballPhysics.isSpinning = true ∧
    (MainScene.handleServerSpin (MainScene.handleRoundStart spinningScene) 7).ballPhysics.animationTimeline ≠ some 7 := by
  refine ⟨?_, rfl, rfl, rfl, rfl, rfl, by decide⟩
  intro s index hms h0 h1
  unfold MainScene.handleServerSpin MainScene.startSpin MainScene.stopCountdown MainScene.canSpin
  simp only [hms, Bool.not_false, Bool.and_self]
  rw [if_neg (by simp)]
  refine ⟨rfl, rfl, ?_, ?_⟩
  · intro hbp
    have hcond : ¬ (s.ballPhysics.isSpinning = true ∨ index < 0 ∨ pocketCount ≤ index) := by
      push_neg
      exact ⟨by simp [hbp], h0, h1⟩
    unfold BallPhysics.startSpin
    rw [if_neg hcond]
    exact ⟨rfl, rfl⟩
  · intro hbp
    unfold BallPhysics.startSpin
    rw [if_pos (Or.inl hbp)]

/-- Witness for the amended claim C3: from the CountdownRunning state with
    the previous ball locked on pocket 3 and the engine flag clear, a remote
    Spin(7) stops the countdown and starts the engine targeting pocket 7. -/
theorem serverSpin_engine_start_characterization_witness :
    (countdownScene.isSpinning = false ∧
     countdownScene.ballPhysics.isSpinning = false ∧
     (0:ℤ) ≤ 7 ∧ (7:ℤ) < pocketCount) ∧
    ((MainScene.handleServerSpin countdownScene 7).countdownRunning = false ∧
     (MainScene.handleServerSpin countdownScene 7).isSpinning = true ∧
     (MainScene.handleServerSpin countdownScene 7).ballPhysics.isSpinning = true ∧
     (MainScene.handleServerSpin countdownScene 7).ballPhysics.animationTimeline = some 7) := by
  have h := serverSpin_engine_start_characterization.1 countdownScene 7 rfl (by decide) (by decide)
  exact ⟨⟨rfl, rfl, by decide, by decide⟩,
    ⟨h.1, h.2.1, (h.2.2.1 rfl).1, (h.2.2.1 rfl).2⟩⟩

/-- Claim C4 (code bug): requesting a spin to the out-of-range pocket 37 from
    the ready state is rejected by the engine (no animation is registered and
    the engine state is unchanged), but the scene flips its isSpinning flag
    to true before delegating and nothing resets it, so the game state does
    change, contradicting the no-state-change claim. -/
theorem rejected_out_of_range_spin_flips_isSpinning :
    readyScene.isSpinning = false ∧
    (MainScene.startSpin readyScene 37).isSpinning = true ∧
    (MainScene.startSpin readyScene 37).ballPhysics = readyScene.ballPhysics ∧
    (MainScene.startSpin readyScene 37).ballPhysics.animationTimeline = none :=
  ⟨rfl, rfl, rfl, rfl⟩

/-- Claim C10: in manual mode, a public spin request with a defined but
    out-of-range target number is not rejected: provided the game is ready to
    spin it takes the random path, and the drawn pocket
    floor(rand * pocketCount) is in range and becomes the target of the new
    spin session. -/
theorem out_of_range_manual_spin_takes_random_path
    (s : MainScene.State) (t : ℤ) (rand : ℚ)
    (hsc : s.isServerControlled = false)
    (hcan : MainScene.canSpin s = true)
    (hbp : s.ballPhysics.isSpinning = false)
    (hout : t < 0 ∨ pocketCount ≤ t)
    (hr0 : 0 ≤ rand) (hr1 : rand < 1) :
    0 ≤ ⌊rand * ((pocketCount : ℤ) : ℚ)⌋ ∧
    ⌊rand * ((pocketCount : ℤ) : ℚ)⌋ < pocketCount ∧
    (MainScene.spin s (some t) rand).isSpinning = true ∧
    (MainScene.spin s (some t) rand).ballPhysics.isSpinning = true ∧
    (MainScene.spin s (some t) rand).ballPhysics.animationTimeline
      = some ⌊rand * ((pocketCount : ℤ) : ℚ)⌋ := by
  have hpc : ((pocketCount : ℤ) : ℚ) = 37 := by norm_num [pocketCount]
  have hfl0 : 0 ≤ ⌊rand * ((pocketCount : ℤ) : ℚ)⌋ := by
    apply Int.le_floor.mpr
    push_cast
    rw [hpc]
    positivity
  have hflU : ⌊rand * ((pocketCount : ℤ) : ℚ)⌋ < pocketCount := by
    apply Int.floor_lt.mpr
    rw [hpc]
    calc rand * 37 < 1 * 37 := by linarith
    _ = ((37:ℤ):ℚ) := by norm_num
    _ = ((pocketCount : ℤ) : ℚ) := by norm_num [pocketCount]
  have hnotin : ¬ (0 ≤ t ∧ t < pocketCount) := by
    have h37 : pocketCount = 37 := rfl
    rcases hout with h | h
    · intro hc
      omega
    · intro hc
      omega
  have hcond : ¬ (s.ballPhysics.isSpinning = true ∨
      ⌊rand * ((pocketCount : ℤ) : ℚ)⌋ < 0 ∨
      pocketCount ≤ ⌊rand * ((pocketCount : ℤ) : ℚ)⌋) := by
    push_neg
    exact ⟨by simp [hbp], hfl0, hflU⟩
  refine ⟨hfl0, hflU, ?_⟩
  have hs : MainScene.spin s (some t) rand = MainScene.handleInputRandomSpin s rand := by
    unfold MainScene.spin
    rw [if_neg (by simp [hsc])]
    exact if_neg hnotin
  rw [hs]
  unfold MainScene.handleInputRandomSpin
  rw [if_pos hcan]
  unfold MainScene.startSpin
  rw [if_neg (by simp [hcan])]
  unfold BallPhysics.startSpin
  rw [if_neg hcond]
  exact ⟨rfl, rfl, rfl⟩

/-- Witness for claim C10: target 99 in the manual ready scene with random
    draw 1/2 spins to pocket 18. -/
theorem out_of_range_manual_spin_takes_random_path_witness :
    (manualReadyScene.isServerControlled = false ∧
     MainScene.canSpin manualReadyScene = true ∧
     manualReadyScene.ballPhysics.isSpinning = false ∧
     ((99:ℤ) < 0 ∨ pocketCount ≤ 99) ∧ (0:ℚ) ≤ 1/2 ∧ (1/2:ℚ) < 1) ∧
    (0 ≤ ⌊(1/2:ℚ) * ((pocketCount : ℤ) : ℚ)⌋ ∧
     ⌊(1/2:ℚ) * ((pocketCount : ℤ) : ℚ)⌋ < pocketCount ∧
     (MainScene.spin manualReadyScene (some 99) (1/2)).isSpinning = true ∧
     (MainScene.spin manualReadyScene (some 99) (1/2)).ballPhysics.isSpinning = true ∧
     (MainScene.spin manualReadyScene (some 99) (1/2)).ballPhysics.animationTimeline
       = some ⌊(1/2:ℚ) * ((pocketCount : ℤ) : ℚ)⌋) :=
  ⟨⟨rfl, rfl, rfl, Or.inr (by decide), by norm_num, by norm_num⟩,
   out_of_range_manual_spin_takes_random_path manualReadyScene 99 (1/2)
     rfl rfl rfl (Or.inr (by decide)) (by norm_num) (by norm_num)⟩
